import Mathlib

/-!
Verification of the signal-scoring and prediction engine of the
trade-analytics application (files `app/predictions.py`, `app/patterns.py`,
`app/indicators.py`, `app/routes.py`).

The Python code is shallowly embedded: every dictionary-shaped value becomes
an association list or a structure, every float becomes an exact rational
(the engine only compares against rational threshold constants and performs
field arithmetic, so ℚ models the decision logic faithfully), and every
`try/except` becomes an `Except`/`Option` value.  The indicator library
(`pandas_ta`) and the two standard-deviation summaries (which need real
square roots) are treated as external providers, exactly as the engine
treats them: their outputs are inputs of the embedded functions.
-/

/-- Substring test on character lists: does the second list start with the
first one?  Used to embed Python's `in` and `startswith` string operators. -/
def charsHasPre : List Char → List Char → Bool
  | [], _ => true
  | _ :: _, [] => false
  | a :: as, b :: bs => a == b && charsHasPre as bs

/-- Does the second list contain the first one as a contiguous run?
Embeds Python's `needle in hay` on strings. -/
def charsContains (needle : List Char) : List Char → Bool
  | [] => needle.isEmpty
  | b :: bs => charsHasPre needle (b :: bs) || charsContains needle bs

/-- `strContains hay needle` embeds Python's `needle in hay`. -/
def strContains (hay needle : String) : Bool :=
  charsContains needle.data hay.data

/-- `strStarts s pre` embeds Python's `s.startswith(pre)`. -/
def strStarts (s pre : String) : Bool :=
  charsHasPre pre.data s.data

/-- Code-point lexicographic order on character lists: Python's `<` on
strings. -/
def charsLt : List Char → List Char → Bool
  | [], [] => false
  | [], _ :: _ => true
  | _ :: _, [] => false
  | a :: as, b :: bs => a < b || (a == b && charsLt as bs)

/-- `strLtB a b` embeds Python's `a < b` on strings. -/
def strLtB (a b : String) : Bool :=
  charsLt a.data b.data

/-- Round-half-to-even on rationals: Python's `round(x)` semantics.
`Int.fdiv q.num q.den` is the floor of `q` (the denominator is positive),
and `n % 2 = 0` decides evenness. -/
def pyRoundInt (q : ℚ) : ℤ :=
  let n : ℤ := Int.fdiv q.num q.den
  let r : ℚ := q - n
  if r < 1/2 then n
  else if 1/2 < r then n + 1
  else if n % 2 = 0 then n else n + 1

/-- Python's `round(x, d)` on an exact rational. -/
def pyRound (d : ℕ) (q : ℚ) : ℚ :=
  (pyRoundInt (q * 10 ^ d) : ℚ) / 10 ^ d

deriving instance DecidableEq for Except

/--
An indicator result dictionary (`calculate_indicator` in `app/indicators.py`
returns `Dict[str, float]`, with a few string-valued keys such as
`price_vs_vwap` for VWAP/SuperTrend).  Numeric and string entries are kept
in two association lists.
-/
structure IndicatorReading where
  nums : List (String × ℚ)
  strs : List (String × String)
deriving DecidableEq

/-- `result.get(key, default)` for a numeric entry. -/
def getNum (r : IndicatorReading) (k : String) (d : ℚ) : ℚ :=
  (List.lookup k r.nums).getD d

/-- `result.get(key, default)` for a string entry. -/
def getStr (r : IndicatorReading) (k : String) (d : String) : String :=
  (List.lookup k r.strs).getD d

/-!
`_analyze_indicator_signal` from `app/predictions.py` (lines 136-255)
maps one indicator result dictionary and the current price to a pair
`(signal, weight)`.  The Python locals start at `signal = 'neutral'`,
`weight = 1.0` and each `elif indicator_name == ...:` arm overwrites
both; a fall-through keeps the defaults.  Each arm of the Python chain
is embedded as its own small definition below, and the dispatcher
follows.  Weight decimals appear as exact fractions (1.5 = 3/2,
0.8 = 4/5, 1.2 = 6/5, 1.3 = 13/10, 1.4 = 7/5, 1.1 = 11/10, 0.7 = 7/10).
The function's own `except` arm (reachable only through ill-typed result
dictionaries, which the embedding's types exclude) returns
`('neutral', 0.0)` and is not represented.
-/

/-- The `'rsi'` arm (`app/predictions.py` lines 152-165). -/
def rsi_signal (result : IndicatorReading) : String × ℚ :=
  let rsi_value := getNum result "rsi" 50
  if rsi_value < 30 then ("bullish", 3/2)
  else if rsi_value > 70 then ("bearish", 3/2)
  else if rsi_value < 40 then ("bullish", 4/5)
  else if rsi_value > 60 then ("bearish", 4/5)
  else ("neutral", 1)

/-- The `'macd'` arm (lines 167-175). -/
def macd_signal (result : IndicatorReading) : String × ℚ :=
  let macd := getNum result "macd" 0
  let macd_sig := getNum result "macd_signal" 0
  if macd > macd_sig then ("bullish", 6/5)
  else if macd < macd_sig then ("bearish", 6/5)
  else ("neutral", 1)

/-- The `'ema'` arm (lines 177-184): reads the key `ema`, defaulting to
the current price. -/
def ema_signal (result : IndicatorReading) (current_price : ℚ) : String × ℚ :=
  let ema_value := getNum result "ema" current_price
  if current_price > ema_value then ("bullish", 1)
  else if current_price < ema_value then ("bearish", 1)
  else ("neutral", 1)

/-- The `'bb'` arm (lines 186-202). -/
def bb_signal (result : IndicatorReading) (current_price : ℚ) : String × ℚ :=
  let bb_upper := getNum result "bb_upper" current_price
  let bb_lower := getNum result "bb_lower" current_price
  let bb_middle := getNum result "bb_middle" current_price
  if current_price ≤ bb_lower then ("bullish", 13/10)
  else if current_price ≥ bb_upper then ("bearish", 13/10)
  else if current_price > bb_middle then ("bullish", 7/10)
  else if current_price < bb_middle then ("bearish", 7/10)
  else ("neutral", 1)

/-- The `'stoch'` arm (lines 204-218). -/
def stoch_signal (result : IndicatorReading) : String × ℚ :=
  let stoch_k := getNum result "stoch_k" 50
  let stoch_d := getNum result "stoch_d" 50
  if stoch_k < 20 ∧ stoch_d < 20 then ("bullish", 7/5)
  else if stoch_k > 80 ∧ stoch_d > 80 then ("bearish", 7/5)
  else if stoch_k > stoch_d then ("bullish", 4/5)
  else if stoch_k < stoch_d then ("bearish", 4/5)
  else ("neutral", 1)

/-- The `'stoch_rsi'` arm (lines 220-228). -/
def stoch_rsi_signal (result : IndicatorReading) : String × ℚ :=
  let k := getNum result "stoch_rsi_k" 50
  let d := getNum result "stoch_rsi_d" 50
  if k < 20 ∧ d < 20 then ("bullish", 13/10)
  else if k > 80 ∧ d > 80 then ("bearish", 13/10)
  else ("neutral", 1)

/-- The `'vwap'` arm (lines 230-238); the source also reads the unused
`vwap` value. -/
def vwap_signal (result : IndicatorReading) : String × ℚ :=
  let price_vs_vwap := getStr result "price_vs_vwap" "neutral"
  if price_vs_vwap = "above" then ("bullish", 11/10)
  else if price_vs_vwap = "below" then ("bearish", 11/10)
  else ("neutral", 1)

/-- The `'supertrend'` arm (lines 240-248). -/
def supertrend_signal (result : IndicatorReading) : String × ℚ :=
  let st_dir := getStr result "supertrend_direction" "neutral"
  let price_vs_st := getStr result "price_vs_supertrend" "neutral"
  if st_dir = "bullish" ∧ price_vs_st = "above" then ("bullish", 3/2)
  else if st_dir = "bearish" ∧ price_vs_st = "below" then ("bearish", 3/2)
  else ("neutral", 1)

/-- The dispatcher of `_analyze_indicator_signal`: the
`if/elif indicator_name == ...` chain, with the defaults
`('neutral', 1.0)` for an unknown name. -/
def analyze_indicator_signal (indicator_name : String) (result : IndicatorReading)
    (current_price : ℚ) : String × ℚ :=
  if indicator_name = "rsi" then rsi_signal result
  else if indicator_name = "macd" then macd_signal result
  else if indicator_name = "ema" then ema_signal result current_price
  else if indicator_name = "bb" then bb_signal result current_price
  else if indicator_name = "stoch" then stoch_signal result
  else if indicator_name = "stoch_rsi" then stoch_rsi_signal result
  else if indicator_name = "vwap" then vwap_signal result
  else if indicator_name = "supertrend" then supertrend_signal result
  else ("neutral", 1)

/-! ## Candlestick patterns (`app/patterns.py`) -/

/-- One entry of a pattern's `occurrences` list (built at
`app/patterns.py` lines 128-136). -/
structure Occurrence where
  timestamp : String
  direction : String
  strength : ℚ
deriving DecidableEq

/--
Value attached to one pattern name in the map returned by
`calculate_candlestick_patterns`: either the structured dictionary
(`status`, `total_signals`, counts, `occurrences`) or a legacy plain
string (`"Not Detected"`, `"Pattern Not Supported"`, an error text, or an
old-style detection label).  The `bullish_count`/`bearish_count`/
`strongest_signal` fields are never read by `get_pattern_signals` and are
omitted from the embedding.
-/
inductive PatternData
  | dict (status : String) (total_signals : ℕ) (occurrences : List Occurrence)
  | str (s : String)
deriving DecidableEq

/-- The status string the aggregator inspects: `data['status']` for the
dictionary shape, `str(data)` for the legacy string shape. -/
def statusOf : PatternData → String
  | .dict st _ _ => st
  | .str s => s

/-- `data.get('total_signals', 0)` (only the dictionary shape has it). -/
def totalSignalsOf : PatternData → ℕ
  | .dict _ t _ => t
  | .str _ => 0

/-- `data.get('occurrences', [])` (only the dictionary shape has it). -/
def occurrencesOf : PatternData → List Occurrence
  | .dict _ _ o => o
  | .str _ => []

/-- The `detected` flag of the loop in `get_pattern_signals`
(`app/patterns.py` lines 296-303): both shapes are detected when the
status is not `"Not Detected"` and starts with neither `"Error"` nor
`"Pattern Not Supported"`. -/
def patDetected (data : PatternData) : Bool :=
  statusOf data != "Not Detected"
    && !(strStarts (statusOf data) "Error")
    && !(strStarts (statusOf data) "Pattern Not Supported")

/-- Static bullish membership table (`bullish_patterns` local,
`app/patterns.py` lines 272-275). -/
def bullish_pattern_table : List String :=
  ["hammer", "morning_star", "three_white_soldiers", "piercing",
   "inverted_hammer", "dragonfly_doji"]

/-- Static bearish membership table (lines 277-280). -/
def bearish_pattern_table : List String :=
  ["shooting_star", "evening_star", "three_black_crows",
   "dark_cloud_cover", "hanging_man", "gravestone_doji"]

/-- Static neutral membership table (lines 282-284). -/
def neutral_pattern_table : List String :=
  ["doji", "spinning_top", "long_legged_doji", "inside"]

/-- Classification bucket of a detected pattern. -/
inductive Bucket
  | bull
  | bear
  | neut
deriving DecidableEq

/--
Classification of one detected pattern (`app/patterns.py` lines 317-338).
Both the dictionary and the legacy-string branches of the source apply the
same chain to the pattern's status string: substring `"Bullish"` or static
bullish-table membership first, then substring `"Bearish"` or static
bearish-table membership, then neutral-table membership, else no bucket.
-/
def classifyPattern (pattern : String) (data : PatternData) : Option Bucket :=
  if strContains (statusOf data) "Bullish" || bullish_pattern_table.contains pattern then
    some Bucket.bull
  else if strContains (statusOf data) "Bearish" || bearish_pattern_table.contains pattern then
    some Bucket.bear
  else if neutral_pattern_table.contains pattern then
    some Bucket.neut
  else
    none

/-- One occurrence flattened into `all_occurrences`
(`app/patterns.py` lines 309-315). -/
structure OccEntry where
  pattern : String
  timestamp : String
  direction : String
  strength : ℚ
deriving DecidableEq

/-- Loop state of `get_pattern_signals`: the growing lists and counters. -/
structure PatAccum where
  detected : List String
  bullish : List String
  bearish : List String
  neutral : List String
  bullishCount : ℕ
  bearishCount : ℕ
  neutralCount : ℕ
  totalOccurrences : ℕ
  allOccurrences : List OccEntry
deriving DecidableEq

def initPatAccum : PatAccum :=
  { detected := [], bullish := [], bearish := [], neutral := [],
    bullishCount := 0, bearishCount := 0, neutralCount := 0,
    totalOccurrences := 0, allOccurrences := [] }

/-- One iteration of the `for pattern, data in patterns.items()` loop of
`get_pattern_signals` (`app/patterns.py` lines 291-338). -/
def patStep (acc : PatAccum) (item : String × PatternData) : PatAccum :=
  let pattern := item.1
  let data := item.2
  if patDetected data then
    let acc1 :=
      { acc with
        detected := acc.detected ++ [pattern],
        totalOccurrences := acc.totalOccurrences + totalSignalsOf data,
        allOccurrences := acc.allOccurrences ++
          (occurrencesOf data).map fun o =>
            { pattern := pattern, timestamp := o.timestamp,
              direction := o.direction, strength := o.strength } }
    match classifyPattern pattern data with
    | some Bucket.bull =>
        { acc1 with bullish := acc1.bullish ++ [pattern],
                    bullishCount := acc1.bullishCount + 1 }
    | some Bucket.bear =>
        { acc1 with bearish := acc1.bearish ++ [pattern],
                    bearishCount := acc1.bearishCount + 1 }
    | some Bucket.neut =>
        { acc1 with neutral := acc1.neutral ++ [pattern],
                    neutralCount := acc1.neutralCount + 1 }
    | none => acc1
  else
    acc

/-- Stable descending insertion by timestamp: an element is placed before
the first strictly smaller key, so equal keys keep their original order —
the behavior of Python's stable `list.sort(key=..., reverse=True)`. -/
def insertOccDesc (x : OccEntry) : List OccEntry → List OccEntry
  | [] => [x]
  | y :: ys =>
      if strLtB y.timestamp x.timestamp then x :: y :: ys
      else y :: insertOccDesc x ys

/-- `all_occurrences.sort(key=lambda x: x['timestamp'], reverse=True)`. -/
def sortOccDesc (l : List OccEntry) : List OccEntry :=
  l.foldl (fun s x => insertOccDesc x s) []

/-- Output of `get_pattern_signals` (the `signals` dictionary built at
`app/patterns.py` lines 261-270). -/
structure PatternSignals where
  overall_signal : String
  signal_strength : String
  detected_patterns : List String
  bullish_patterns : List String
  bearish_patterns : List String
  neutral_patterns : List String
  total_occurrences : ℕ
  recent_patterns : List OccEntry
deriving DecidableEq

/--
`get_pattern_signals` from `app/patterns.py` (lines 251-363): folds the
pattern map (an association list, preserving Python's dict iteration
order) through `patStep`, then derives the overall signal from the
bullish/bearish counters, the strength tier from the total classified
count, and the ten most recent occurrences.  (The source guards the sort
with `if all_occurrences:`; sorting the empty list yields the same `[]`.)
-/
def get_pattern_signals (patterns : List (String × PatternData)) : PatternSignals :=
  let acc := patterns.foldl patStep initPatAccum
  let total_patterns := acc.bullishCount + acc.bearishCount + acc.neutralCount
  { overall_signal :=
      if acc.bullishCount > acc.bearishCount then "bullish"
      else if acc.bearishCount > acc.bullishCount then "bearish"
      else "neutral",
    signal_strength :=
      if total_patterns ≥ 3 then "strong"
      else if total_patterns ≥ 2 then "moderate"
      else "weak",
    detected_patterns := acc.detected,
    bullish_patterns := acc.bullish,
    bearish_patterns := acc.bearish,
    neutral_patterns := acc.neutral,
    total_occurrences := acc.totalOccurrences,
    recent_patterns := (sortOccDesc acc.allOccurrences).take 10 }

/-! ## EMA branch of `calculate_indicator` (`app/indicators.py` lines 68-78) -/

/-- Simple moving average of the first `period` closes: the seed that
`pandas_ta.ema` (default `sma=True`) uses at index `period - 1`. -/
def sma_seed (closes : List ℚ) (period : ℕ) : ℚ :=
  (closes.take period).sum / period

/--
Last value of `pandas_ta.ema(close, length=period)` with its defaults
(`sma=True`, `adjust=False`): the first `period - 1` outputs are missing,
the output at index `period - 1` is the SMA of the first `period` closes,
and each later output is `α·close + (1-α)·previous` with
`α = 2/(period+1)`.  `none` models the all-NaN column produced when the
series is shorter than `period`.
-/
def ema_last (closes : List ℚ) (period : ℕ) : Option ℚ :=
  if period = 0 ∨ closes.length < period then none
  else
    some ((closes.drop period).foldl
      (fun e c => (2 / (period + 1) : ℚ) * c + (1 - 2 / (period + 1)) * e)
      (sma_seed closes period))

/--
The `'ema'` branch of `calculate_indicator` (`app/indicators.py` lines
68-78): rejects an empty parameter list, and otherwise stores, for each
period `p`, the rounded last EMA value under the key `"ema_" ++ p` —
never under the bare key `"ema"`.  (For a series shorter than the period
the source stores a NaN under the key; `result.get('ema', ...)` in the
signal interpreter is equally blind to it, and the embedding leaves the
key out.)
-/
def calculate_indicator_ema (closes : List ℚ) (params : List ℕ) :
    Except String IndicatorReading :=
  if params.isEmpty then
    Except.error "EMA requires at least 1 parameter (period)"
  else
    Except.ok
      { nums := params.foldl (fun acc p =>
          match ema_last closes p with
          | some v => acc ++ [("ema_" ++ toString p, pyRound 2 v)]
          | none => acc) [],
        strs := [] }

/-! ## Prediction engine (`app/predictions.py`) -/

/-- One OHLCV candle after request parsing (`convert_ohlc_to_dataframe`
in `app/utils.py` produces one float row per input record). -/
structure Candle where
  open_ : ℚ
  high : ℚ
  low : ℚ
  close : ℚ
  volume : ℚ
deriving DecidableEq

/-- `float(df['close'].iloc[-1])`: `none` models the `IndexError` raised
on an empty frame. -/
def lastClose (candles : List Candle) : Option ℚ :=
  (candles.map Candle.close).getLast?

/--
Output of `_analyze_market_conditions` (`app/predictions.py` lines
291-354).  Its volatility tier needs a standard deviation (a real square
root), so the whole summary is treated as an external numeric input; no
claim constrains its fields.
-/
structure MarketConditions where
  trend : Option String
  volatility : Option String
  volume : Option String
  momentum : Option String
  note : Option String
deriving DecidableEq

/--
The external collaborators of one `predict_binary_options` call:
* `indicator name params` — `calculate_indicator(df, name, params)`
  (`app/indicators.py`), an `Except.error` modelling a raised exception;
* `patterns` — `calculate_candlestick_patterns(df)` (`app/patterns.py`);
* `risk_stats` — the pair (volatility, volume coefficient of variation)
  computed inside `_assess_risk` from the frame with `pandas` standard
  deviations (real square roots), `none` modelling a raised exception;
* `market` — the `_analyze_market_conditions` summary.
-/
structure Providers where
  indicator : String → List ℕ → Except String IndicatorReading
  patterns : Except String (List (String × PatternData))
  risk_stats : Option (ℚ × ℚ)
  market : MarketConditions

/-- The fixed indicator plan (`indicators_config`,
`app/predictions.py` lines 37-47). -/
def indicators_config : List (String × List ℕ) :=
  [("rsi", [14]), ("macd", [12, 26, 9]), ("ema", [20]), ("bb", [20, 2]),
   ("stoch", [14, 3, 3]), ("atr", [14]), ("stoch_rsi", [14, 14, 3]),
   ("vwap", []), ("supertrend", [10, 3])]

/-- Loop state of the indicator loop in `predict_binary_options`
(`bullish_signals`, `bearish_signals`, `total_signals`, `signal_weights`,
`prediction['indicator_scores']`). -/
structure SigAccum where
  bullish : ℚ
  bearish : ℚ
  total : ℚ
  breakdown : List (String × (String × ℚ))
  scores : List (String × IndicatorReading)

def initSigAccum : SigAccum :=
  { bullish := 0, bearish := 0, total := 0, breakdown := [], scores := [] }

/--
One iteration of the indicator loop (`app/predictions.py` lines 55-73):
a raised indicator computation is skipped (`continue`); otherwise the
result is recorded, interpreted, and its weight is added to the bullish
or bearish bucket by direction and always to the total.
-/
def stepIndicator (current_price : ℚ) (prov : Providers) (acc : SigAccum)
    (item : String × List ℕ) : SigAccum :=
  match prov.indicator item.1 item.2 with
  | Except.error _ => acc
  | Except.ok result =>
    let sw := analyze_indicator_signal item.1 result current_price
    let bs : ℚ × ℚ :=
      if sw.1 = "bullish" then (acc.bullish + sw.2, acc.bearish)
      else if sw.1 = "bearish" then (acc.bullish, acc.bearish + sw.2)
      else (acc.bullish, acc.bearish)
    { bullish := bs.1, bearish := bs.2, total := acc.total + sw.2,
      breakdown := acc.breakdown ++ [(item.1, sw)],
      scores := acc.scores ++ [(item.1, result)] }

/--
The indicator loop followed by the pattern block of
`predict_binary_options` (`app/predictions.py` lines 49-92): folds the
fixed plan, then (unless pattern computation raised) aggregates the
pattern signals and adds weight 2 (strong) or 1 to the matching bucket
for a non-neutral overall pattern signal.  Returns the accumulated
weights together with `prediction['pattern_analysis']`.
-/
def aggregate_all (current_price : ℚ) (prov : Providers) :
    SigAccum × Option PatternSignals :=
  let acc := indicators_config.foldl (stepIndicator current_price prov) initSigAccum
  match prov.patterns with
  | Except.error _ => (acc, none)
  | Except.ok pats =>
    let sg := get_pattern_signals pats
    if sg.overall_signal = "bullish" then
      let w : ℚ := if sg.signal_strength = "strong" then 2 else 1
      ({ acc with bullish := acc.bullish + w, total := acc.total + w }, some sg)
    else if sg.overall_signal = "bearish" then
      let w : ℚ := if sg.signal_strength = "strong" then 2 else 1
      ({ acc with bearish := acc.bearish + w, total := acc.total + w }, some sg)
    else
      (acc, some sg)

/--
The decision rule of `predict_binary_options` (`app/predictions.py`
lines 94-107): with a positive total weight, a bullish share above 0.6
gives `call` with confidence `min(share, 0.95)`, a bearish share above
0.6 gives `put` symmetrically, and otherwise the prediction stays
`neutral` with confidence `1 - |bullish share - bearish share|`.  With
total weight 0 the initial `('neutral', 0.0)` is kept.
-/
def overall_prediction (bullish_signals bearish_signals total_signals : ℚ) :
    String × ℚ :=
  if total_signals > 0 then
    let bFrac := bullish_signals / total_signals
    let sFrac := bearish_signals / total_signals
    if bFrac > 3/5 then ("call", min bFrac (19/20))
    else if sFrac > 3/5 then ("put", min sFrac (19/20))
    else ("neutral", 1 - |bFrac - sFrac|)
  else ("neutral", 0)

/--
`_assess_risk` from `app/predictions.py` (lines 258-288).  The first
argument models the pair (volatility, volume_cv) the source computes with
`pandas` (standard deviation of simple returns; std/mean of the last ten
volumes); `none` models an exception in that computation, absorbed by the
function's own `except` arm into `'medium'`.  Decimal thresholds appear
as exact fractions: 0.8 = 4/5, 0.02 = 1/50, 0.6 = 3/5, 0.05 = 1/20,
0.08 = 2/25.
-/
def assess_risk (stats : Option (ℚ × ℚ)) (confidence : ℚ) : String :=
  match stats with
  | none => "medium"
  | some (volatility, volume_cv) =>
    if confidence > 4/5 ∧ volatility < 1/50 ∧ volume_cv < 1 then "low"
    else if confidence > 3/5 ∧ volatility < 1/20 then "medium"
    else if volatility > 2/25 ∨ volume_cv > 2 then "high"
    else "medium"

/-- Largest element of a list of rationals (0 for the empty list, which
the callers below never pass). -/
def maxListQ : List ℚ → ℚ
  | [] => 0
  | x :: xs => xs.foldl max x

/-- Smallest element of a list of rationals. -/
def minListQ : List ℚ → ℚ
  | [] => 0
  | x :: xs => xs.foldl min x

/--
`(df['high'].rolling(14).max() - df['low'].rolling(14).min()).mean()`
(`app/predictions.py` lines 372-373): the mean over all full 14-candle
windows of (window high maximum − window low minimum); `pandas.mean`
skips the NaN entries of the first 13 positions, and yields NaN (`none`)
when no full window exists.
-/
def avg_atr (candles : List Candle) : Option ℚ :=
  if candles.length < 14 then none
  else
    let vals := (List.range (candles.length - 13)).map fun i =>
      maxListQ (((candles.drop i).take 14).map Candle.high) -
      minListQ (((candles.drop i).take 14).map Candle.low)
    some (vals.sum / vals.length)

/-- The `entry_suggestions` dictionary (`_generate_entry_suggestions`,
`app/predictions.py` lines 357-408).  Absent keys are `none`; the
`stop_loss`/`take_profit` values are `none` when `avg_atr` is NaN (too
few candles), where the source would store NaN prices. -/
structure EntrySuggestions where
  entry_timing : Option String
  reason : Option String
  position_size : Option String
  stop_loss : Option ℚ
  take_profit : Option ℚ
  recommended_timeframes : Option (List String)
  note : Option String
deriving DecidableEq

/--
`_generate_entry_suggestions` from `app/predictions.py` (lines 357-408),
taking the prediction label, confidence and risk tier already stored in
the prediction dictionary.  An empty candle list makes the body's first
line raise, absorbed by the function's `except` arm into a bare
diagnostic entry (`note`).  Decimal constants appear as exact fractions
(0.8 = 4/5, 0.6 = 3/5, 0.5 = 1/2, 0.7 = 7/10).
-/
def generate_entry_suggestions (candles : List Candle) (pred : String)
    (confidence : ℚ) (risk : String) : EntrySuggestions :=
  match lastClose candles with
  | none =>
    { entry_timing := none, reason := none, position_size := none,
      stop_loss := none, take_profit := none, recommended_timeframes := none,
      note := some "Error generating suggestions: single positional indexer is out-of-bounds" }
  | some current_price =>
    if pred = "call" ∨ pred = "put" then
      let timing :=
        if confidence > 4/5 then "immediate"
        else if confidence > 3/5 then "wait_for_confirmation"
        else "avoid"
      let sl_tp : Option ℚ × Option ℚ :=
        match avg_atr candles with
        | none => (none, none)
        | some a =>
          if pred = "call" then
            (some (pyRound 4 (current_price - a * (1/2))),
             some (pyRound 4 (current_price + a * 1)))
          else
            (some (pyRound 4 (current_price + a * (1/2))),
             some (pyRound 4 (current_price - a * 1)))
      { entry_timing := some timing,
        reason := none,
        position_size := some (if risk = "high" then "small" else "normal"),
        stop_loss := sl_tp.1,
        take_profit := sl_tp.2,
        recommended_timeframes :=
          some (if confidence > 7/10 then ["5m", "15m"] else ["1m", "5m"]),
        note := none }
    else
      { entry_timing := some "avoid",
        reason := some "No clear directional bias detected",
        position_size := none, stop_loss := none, take_profit := none,
        recommended_timeframes := none, note := none }

/-- The `prediction['signals']` dictionary (`app/predictions.py` lines
110-117).  `bullishFrac`/`bearishFrac` embed the source keys
`bullish_ratio`/`bearish_ratio`, computed with the `max(total, 1)`
denominator. -/
structure PredSignals where
  bullish_signals : ℚ
  bearish_signals : ℚ
  total_signals : ℚ
  bullishFrac : ℚ
  bearishFrac : ℚ
  signal_breakdown : List (String × (String × ℚ))
deriving DecidableEq

/-- The prediction dictionary returned by `predict_binary_options`
(`app/predictions.py` lines 23-31 initialize it; the pipeline fills it
in).  `none` fields model keys still at their initial empty value when
the pipeline aborts early. -/
structure Prediction where
  prediction : String
  confidence : ℚ
  timeframe_minutes : ℤ
  signals : Option PredSignals
  indicator_scores : List (String × IndicatorReading)
  pattern_analysis : Option PatternSignals
  risk_assessment : String
  market_conditions : Option MarketConditions
  entry_suggestions : Option EntrySuggestions
  error : Option String

/-- The initial dictionary with the diagnostic `error` key attached: what
the top-level `except` arm of `predict_binary_options` returns (reached
exactly when `float(df['close'].iloc[-1])` raises on an empty frame). -/
def predict_error_result (timeframe_minutes : ℤ) : Prediction :=
  { prediction := "neutral", confidence := 0,
    timeframe_minutes := timeframe_minutes, signals := none,
    indicator_scores := [], pattern_analysis := none,
    risk_assessment := "medium", market_conditions := none,
    entry_suggestions := none,
    error := some "Prediction error: single positional indexer is out-of-bounds" }

/-- The success path of `predict_binary_options` once the current price
is in hand: indicator loop, pattern block, decision rule, `signals`
summary, risk assessment, market summary, entry suggestions, in source
order. -/
def predict_success (candles : List Candle) (prov : Providers)
    (timeframe_minutes : ℤ) (current_price : ℚ) : Prediction :=
  let ap := aggregate_all current_price prov
  let acc := ap.1
  let dp := overall_prediction acc.bullish acc.bearish acc.total
  let risk := assess_risk prov.risk_stats dp.2
  { prediction := dp.1, confidence := dp.2,
    timeframe_minutes := timeframe_minutes,
    signals := some
      { bullish_signals := acc.bullish, bearish_signals := acc.bearish,
        total_signals := acc.total,
        bullishFrac := acc.bullish / max acc.total 1,
        bearishFrac := acc.bearish / max acc.total 1,
        signal_breakdown := acc.breakdown },
    indicator_scores := acc.scores,
    pattern_analysis := ap.2,
    risk_assessment := risk,
    market_conditions := some prov.market,
    entry_suggestions :=
      some (generate_entry_suggestions candles dp.1 dp.2 risk),
    error := none }

/--
`predict_binary_options` from `app/predictions.py` (lines 12-133).  The
only statement of the guarded body that can raise with well-typed inputs
is the initial `float(df['close'].iloc[-1])` (every later sub-step has
its own absorbing handler), so the top-level `except` arm corresponds to
an empty candle list and yields `predict_error_result`; a non-empty list
takes the `predict_success` path.
-/
def predict_binary_options (candles : List Candle) (prov : Providers)
    (timeframe_minutes : ℤ) : Prediction :=
  match lastClose candles with
  | none => predict_error_result timeframe_minutes
  | some current_price =>
    predict_success candles prov timeframe_minutes current_price

/--
The `/predict` route handler (`predict_binary_options_direction`,
`app/routes.py` lines 116-154): after converting the parsed candle list
(one frame row per candle), a series shorter than 30 rows raises
`HTTPException(status_code=400)` before any prediction is computed; the
handler's outer `except` re-wraps that exception in another 400 response,
so the caller sees a 4xx rejection either way, embedded as
`Except.error` with the validation detail.
-/
def predict_binary_options_direction (candles : List Candle)
    (timeframe_minutes : ℤ) (prov : Providers) : Except String Prediction :=
  if candles.length < 30 then
    Except.error "Insufficient data. At least 30 data points required for accurate prediction."
  else
    Except.ok (predict_binary_options candles prov timeframe_minutes)

/-! ## Concrete fixtures used by witnesses and counterexamples -/

/-- An empty market-conditions summary for fixture providers. -/
def wEmptyMarket : MarketConditions := ⟨none, none, none, none, none⟩

/-- Providers in which every external computation raises. -/
def failProviders : Providers :=
  { indicator := fun _ _ => Except.error "calc failure",
    patterns := Except.error "calc failure",
    risk_stats := none, market := wEmptyMarket }

/-- Providers in which RSI returns the oversold reading 25 and every
other computation raises. -/
def rsiOversoldProviders : Providers :=
  { indicator := fun name _ =>
      if name = "rsi" then Except.ok ⟨[("rsi", 25)], []⟩ else Except.error "calc failure",
    patterns := Except.error "calc failure",
    risk_stats := none, market := wEmptyMarket }

/-- Providers in which RSI returns the mid-range reading 50 and every
other computation raises. -/
def rsiNeutralProviders : Providers :=
  { indicator := fun name _ =>
      if name = "rsi" then Except.ok ⟨[("rsi", 50)], []⟩ else Except.error "calc failure",
    patterns := Except.error "calc failure",
    risk_stats := none, market := wEmptyMarket }

/-- A single 100/101/99/100 candle. -/
def oneCandle : List Candle := [⟨100, 101, 99, 100, 1000⟩]

/-- Nineteen closes at 1 followed by one close at 2: a 20-candle series
whose 20-period EMA is the plain average 1.05 while the current price
is 2. -/
def emaMismatchCloses : List ℚ :=
  [1, 1, 1, 1, 1, 1, 1, 1, 1, 1, 1, 1, 1, 1, 1, 1, 1, 1, 1, 2]

/-- A pattern map whose single entry is the bullish-table pattern
`hammer` carrying an explicitly bearish detected status. -/
def bearishHammerPatterns : List (String × PatternData) :=
  [("hammer", PatternData.dict "Bearish (2 signals)" 2 [])]

/-- A four-pattern map: a structured bullish hammer, a legacy bearish
shooting star, a detected doji (neutral table), and a detected legacy
engulfing that no table or label classifies. -/
def c10Patterns : List (String × PatternData) :=
  [("hammer", PatternData.dict "Bullish (1 signals)" 1 []),
   ("shooting_star", PatternData.str "Bearish"),
   ("doji", PatternData.dict "Detected (1 signals)" 1 []),
   ("engulfing", PatternData.str "Detected")]

/-- The entry timing attached to a prediction, when any: the
`entry_suggestions.entry_timing` chain. -/
def entryTimingOf (p : Prediction) : Option String :=
  p.entry_suggestions.bind EntrySuggestions.entry_timing

/-- The `signals` summary produced for the single-candle oversold-RSI
fixture: one bullish RSI signal of weight 1.5, so both shares are the
1.5/1.5 and 0/1.5 quotients. -/
def wOversoldSignals : PredSignals :=
  { bullish_signals := 3/2, bearish_signals := 0, total_signals := 3/2,
    bullishFrac := 1, bearishFrac := 0,
    signal_breakdown := [("rsi", ("bullish", 3/2))] }

/-- Selector for the three classification lists of the loop state, used
to state the loop lemmas once for all three buckets. -/
def bucketList (b : Bucket) (acc : PatAccum) : List String :=
  match b with
  | Bucket.bull => acc.bullish
  | Bucket.bear => acc.bearish
  | Bucket.neut => acc.neutral

/-! ## Shared lemmas about the signal interpreter -/

/-- A neutral RSI signal carries the default weight 1. -/
theorem rsi_signal_neutral_weight (r : IndicatorReading)
    (h : (rsi_signal r).1 = "neutral") : (rsi_signal r).2 = 1 := by
  unfold rsi_signal at h ⊢
  dsimp only at h ⊢
  split_ifs at h ⊢ <;> simp_all

/-- A neutral MACD signal carries the default weight 1. -/
theorem macd_signal_neutral_weight (r : IndicatorReading)
    (h : (macd_signal r).1 = "neutral") : (macd_signal r).2 = 1 := by
  unfold macd_signal at h ⊢
  dsimp only at h ⊢
  split_ifs at h ⊢ <;> simp_all

/-- A neutral EMA signal carries the default weight 1. -/
theorem ema_signal_neutral_weight (r : IndicatorReading) (p : ℚ)
    (h : (ema_signal r p).1 = "neutral") : (ema_signal r p).2 = 1 := by
  unfold ema_signal at h ⊢
  dsimp only at h ⊢
  split_ifs at h ⊢ <;> simp_all

/-- A neutral Bollinger signal carries the default weight 1. -/
theorem bb_signal_neutral_weight (r : IndicatorReading) (p : ℚ)
    (h : (bb_signal r p).1 = "neutral") : (bb_signal r p).2 = 1 := by
  unfold bb_signal at h ⊢
  dsimp only at h ⊢
  split_ifs at h ⊢ <;> simp_all

/-- A neutral Stochastic signal carries the default weight 1. -/
theorem stoch_signal_neutral_weight (r : IndicatorReading)
    (h : (stoch_signal r).1 = "neutral") : (stoch_signal r).2 = 1 := by
  unfold stoch_signal at h ⊢
  dsimp only at h ⊢
  split_ifs at h ⊢ <;> simp_all

/-- A neutral Stochastic-RSI signal carries the default weight 1. -/
theorem stoch_rsi_signal_neutral_weight (r : IndicatorReading)
    (h : (stoch_rsi_signal r).1 = "neutral") : (stoch_rsi_signal r).2 = 1 := by
  unfold stoch_rsi_signal at h ⊢
  dsimp only at h ⊢
  split_ifs at h ⊢ <;> simp_all

/-- A neutral VWAP signal carries the default weight 1. -/
theorem vwap_signal_neutral_weight (r : IndicatorReading)
    (h : (vwap_signal r).1 = "neutral") : (vwap_signal r).2 = 1 := by
  unfold vwap_signal at h ⊢
  dsimp only at h ⊢
  split_ifs at h ⊢ <;> simp_all

/-- A neutral SuperTrend signal carries the default weight 1. -/
theorem supertrend_signal_neutral_weight (r : IndicatorReading)
    (h : (supertrend_signal r).1 = "neutral") : (supertrend_signal r).2 = 1 := by
  unfold supertrend_signal at h ⊢
  dsimp only at h ⊢
  split_ifs at h ⊢ <;> simp_all

/-- Every neutral interpreter output carries the default weight 1. -/
theorem analyze_signal_neutral_weight (name : String) (r : IndicatorReading)
    (p : ℚ) (h : (analyze_indicator_signal name r p).1 = "neutral") :
    (analyze_indicator_signal name r p).2 = 1 := by
  unfold analyze_indicator_signal at h ⊢
  split_ifs at h ⊢
  · exact rsi_signal_neutral_weight r h
  · exact macd_signal_neutral_weight r h
  · exact ema_signal_neutral_weight r p h
  · exact bb_signal_neutral_weight r p h
  · exact stoch_signal_neutral_weight r h
  · exact stoch_rsi_signal_neutral_weight r h
  · exact vwap_signal_neutral_weight r h
  · exact supertrend_signal_neutral_weight r h
  · rfl

/-- Per-arm weight bounds: every RSI weight is non-negative. -/
theorem rsi_signal_weight_nonneg (r : IndicatorReading) :
    0 ≤ (rsi_signal r).2 := by
  unfold rsi_signal
  dsimp only
  split_ifs <;> norm_num

/-- Every MACD weight is non-negative. -/
theorem macd_signal_weight_nonneg (r : IndicatorReading) :
    0 ≤ (macd_signal r).2 := by
  unfold macd_signal
  dsimp only
  split_ifs <;> norm_num

/-- Every EMA weight is non-negative. -/
theorem ema_signal_weight_nonneg (r : IndicatorReading) (p : ℚ) :
    0 ≤ (ema_signal r p).2 := by
  unfold ema_signal
  dsimp only
  split_ifs <;> norm_num

/-- Every Bollinger weight is non-negative. -/
theorem bb_signal_weight_nonneg (r : IndicatorReading) (p : ℚ) :
    0 ≤ (bb_signal r p).2 := by
  unfold bb_signal
  dsimp only
  split_ifs <;> norm_num

/-- Every Stochastic weight is non-negative. -/
theorem stoch_signal_weight_nonneg (r : IndicatorReading) :
    0 ≤ (stoch_signal r).2 := by
  unfold stoch_signal
  dsimp only
  split_ifs <;> norm_num

/-- Every Stochastic-RSI weight is non-negative. -/
theorem stoch_rsi_signal_weight_nonneg (r : IndicatorReading) :
    0 ≤ (stoch_rsi_signal r).2 := by
  unfold stoch_rsi_signal
  dsimp only
  split_ifs <;> norm_num

/-- Every VWAP weight is non-negative. -/
theorem vwap_signal_weight_nonneg (r : IndicatorReading) :
    0 ≤ (vwap_signal r).2 := by
  unfold vwap_signal
  dsimp only
  split_ifs <;> norm_num

/-- Every SuperTrend weight is non-negative. -/
theorem supertrend_signal_weight_nonneg (r : IndicatorReading) :
    0 ≤ (supertrend_signal r).2 := by
  unfold supertrend_signal
  dsimp only
  split_ifs <;> norm_num

/-- Every interpreter weight is non-negative. -/
theorem analyze_signal_weight_nonneg (name : String) (r : IndicatorReading)
    (p : ℚ) : 0 ≤ (analyze_indicator_signal name r p).2 := by
  unfold analyze_indicator_signal
  split_ifs
  · exact rsi_signal_weight_nonneg r
  · exact macd_signal_weight_nonneg r
  · exact ema_signal_weight_nonneg r p
  · exact bb_signal_weight_nonneg r p
  · exact stoch_signal_weight_nonneg r
  · exact stoch_rsi_signal_weight_nonneg r
  · exact vwap_signal_weight_nonneg r
  · exact supertrend_signal_weight_nonneg r
  · norm_num

/-! ## C7 — risk assessor rule order -/

/--
C7: for every confidence, volatility, and volume coefficient of
variation, `_assess_risk` returns the result of evaluating its rules in
order — confidence > 0.8 ∧ volatility < 0.02 ∧ volume_cv < 1.0 ⇒ low;
else confidence > 0.6 ∧ volatility < 0.05 ⇒ medium; else
volatility > 0.08 ∨ volume_cv > 2.0 ⇒ high; else medium — and in
particular (0.9, 0.01, 0.5) yields low while (0.9, 0.1, 0.5) yields high.
-/
theorem C7_assess_risk_rules (confidence volatility volume_cv : ℚ) :
    ((confidence > 4/5 ∧ volatility < 1/50 ∧ volume_cv < 1) →
      assess_risk (some (volatility, volume_cv)) confidence = "low")
    ∧ (¬(confidence > 4/5 ∧ volatility < 1/50 ∧ volume_cv < 1) →
        (confidence > 3/5 ∧ volatility < 1/20) →
        assess_risk (some (volatility, volume_cv)) confidence = "medium")
    ∧ (¬(confidence > 4/5 ∧ volatility < 1/50 ∧ volume_cv < 1) →
        ¬(confidence > 3/5 ∧ volatility < 1/20) →
        (volatility > 2/25 ∨ volume_cv > 2) →
        assess_risk (some (volatility, volume_cv)) confidence = "high")
    ∧ (¬(confidence > 4/5 ∧ volatility < 1/50 ∧ volume_cv < 1) →
        ¬(confidence > 3/5 ∧ volatility < 1/20) →
        ¬(volatility > 2/25 ∨ volume_cv > 2) →
        assess_risk (some (volatility, volume_cv)) confidence = "medium")
    ∧ assess_risk (some (1/100, 1/2)) (9/10) = "low"
    ∧ assess_risk (some (1/10, 1/2)) (9/10) = "high" := by
  refine ⟨?_, ?_, ?_, ?_, ?_, ?_⟩
  · intro h
    simp only [assess_risk]
    rw [if_pos h]
  · intro h1 h2
    simp only [assess_risk]
    rw [if_neg h1, if_pos h2]
  · intro h1 h2 h3
    simp only [assess_risk]
    rw [if_neg h1, if_neg h2, if_pos h3]
  · intro h1 h2 h3
    simp only [assess_risk]
    rw [if_neg h1, if_neg h2, if_neg h3]
  · norm_num [assess_risk]
  · norm_num [assess_risk]

/-- C7 witness: the two concrete scenarios instantiated through the rule
theorem. -/
theorem C7_assess_risk_rules_witness :
    assess_risk (some (1/100, 1/2)) (9/10) = "low"
    ∧ assess_risk (some (1/10, 1/2)) (9/10) = "high" :=
  ⟨(C7_assess_risk_rules (9/10) (1/100) (1/2)).1 (by norm_num),
   (C7_assess_risk_rules (9/10) (1/10) (1/2)).2.2.1
     (by norm_num) (by norm_num) (by norm_num)⟩

/-! ## C8 — short series rejected by the predict route -/

/--
C8: every request to the predict route whose series has fewer than 20
candles is rejected with the 400 validation error and no prediction is
produced (the route's guard actually requires 30 candles, so every
series shorter than 20 falls under it).
-/
theorem C8_short_series_rejected (candles : List Candle) (tf : ℤ)
    (prov : Providers) (h : candles.length < 20) :
    predict_binary_options_direction candles tf prov =
      Except.error "Insufficient data. At least 30 data points required for accurate prediction." := by
  unfold predict_binary_options_direction
  rw [if_pos (by omega)]

/-- C8 witness: the one-candle series is rejected. -/
theorem C8_short_series_rejected_witness :
    oneCandle.length < 20
    ∧ predict_binary_options_direction oneCandle 5 failProviders =
        Except.error "Insufficient data. At least 30 data points required for accurate prediction." :=
  ⟨by decide, C8_short_series_rejected oneCandle 5 failProviders (by decide)⟩

/-! ## C1 — weight of a neutral signal -/

unseal Rat.mul Rat.add Rat.sub Rat.inv in
/--
C1 counterexample: the claim says a neutral signal carries weight 0 and
contributes nothing to the total weight; but the interpreter's `else`
row for RSI (reading 50) returns `('neutral', 1.0)`, and processing that
indicator adds the weight 1 to the accumulated total.
-/
theorem C1_neutral_weight_counterexample :
    analyze_indicator_signal "rsi" ⟨[("rsi", 50)], []⟩ 100 = ("neutral", 1)
    ∧ (analyze_indicator_signal "rsi" ⟨[("rsi", 50)], []⟩ 100).2 ≠ 0
    ∧ (stepIndicator 100 rsiNeutralProviders initSigAccum ("rsi", [14])).total = 1 := by
  decide

set_option maxHeartbeats 1000000 in
/--
C1 amended: an indicator whose computation raised is skipped outright and
changes no accumulator field, while an indicator that falls into an
`else` row of the rule table yields direction neutral with the default
weight 1.0 (not 0), which is added to the total weight but to neither the
bullish nor the bearish weight.
-/
theorem C1_neutral_weight_amended :
    (∀ (name : String) (r : IndicatorReading) (price : ℚ),
      (analyze_indicator_signal name r price).1 = "neutral" →
      (analyze_indicator_signal name r price).2 = 1)
    ∧ (∀ (price : ℚ) (prov : Providers) (acc : SigAccum)
        (item : String × List ℕ) (e : String),
        prov.indicator item.1 item.2 = Except.error e →
        stepIndicator price prov acc item = acc)
    ∧ (∀ (price : ℚ) (prov : Providers) (acc : SigAccum)
        (item : String × List ℕ) (r : IndicatorReading),
        prov.indicator item.1 item.2 = Except.ok r →
        (analyze_indicator_signal item.1 r price).1 = "neutral" →
        (stepIndicator price prov acc item).bullish = acc.bullish
        ∧ (stepIndicator price prov acc item).bearish = acc.bearish
        ∧ (stepIndicator price prov acc item).total =
            acc.total + (analyze_indicator_signal item.1 r price).2) := by
  refine ⟨?_, ?_, ?_⟩
  · intro name r price h
    exact analyze_signal_neutral_weight name r price h
  · intro price prov acc item e he
    unfold stepIndicator
    rw [he]
  · intro price prov acc item r hr hn
    unfold stepIndicator
    rw [hr]
    simp only [hn]
    rw [if_neg (show ¬("neutral" = "bullish") by decide),
      if_neg (show ¬("neutral" = "bearish") by decide)]
    simp

/-- C1 amended witness: the RSI reading 50 is neutral with weight 1; the
skipped MACD indicator leaves the accumulator untouched; processing the
neutral RSI signal adds 1 to the total weight only. -/
theorem C1_neutral_weight_amended_witness :
    (analyze_indicator_signal "rsi" ⟨[("rsi", 50)], []⟩ 100).2 = 1
    ∧ stepIndicator 100 rsiNeutralProviders initSigAccum ("macd", [12, 26, 9])
        = initSigAccum
    ∧ (stepIndicator 100 rsiNeutralProviders initSigAccum ("rsi", [14])).bullish = 0
    ∧ (stepIndicator 100 rsiNeutralProviders initSigAccum ("rsi", [14])).total = 0 + 1 := by
  refine ⟨C1_neutral_weight_amended.1 "rsi" ⟨[("rsi", 50)], []⟩ 100 (by rfl),
    C1_neutral_weight_amended.2.1 100 rsiNeutralProviders initSigAccum
      ("macd", [12, 26, 9]) "calc failure" (by rfl), ?_, ?_⟩
  · exact (C1_neutral_weight_amended.2.2 100 rsiNeutralProviders initSigAccum
      ("rsi", [14]) ⟨[("rsi", 50)], []⟩ (by rfl) (by rfl)).1
  · exact (C1_neutral_weight_amended.2.2 100 rsiNeutralProviders initSigAccum
      ("rsi", [14]) ⟨[("rsi", 50)], []⟩ (by rfl) (by rfl)).2.2

/-! ## C3 — the EMA reading never reaches the EMA rule -/

unseal Rat.mul Rat.add Rat.sub Rat.inv in
/--
C3: in the fixed plan the EMA provider stores its value under the key
`ema_20`, while the signal interpreter reads the key `ema` and falls back
to the current price, so even with a successfully computed EMA of 1.05
and a current price of 2 (strictly above it) the EMA indicator yields
`('neutral', 1.0)` instead of the claimed `('bullish', 1.0)`: the
interpreter's EMA comparison is dead code in the pipeline.
-/
theorem C3_ema_key_mismatch :
    calculate_indicator_ema emaMismatchCloses [20]
        = Except.ok { nums := [("ema_20", 21/20)], strs := [] }
    ∧ ema_last emaMismatchCloses 20 = some (21/20)
    ∧ (2 : ℚ) > 21/20
    ∧ analyze_indicator_signal "ema" { nums := [("ema_20", 21/20)], strs := [] } 2
        = ("neutral", 1)
    ∧ analyze_indicator_signal "ema" { nums := [("ema_20", 21/20)], strs := [] } 2
        ≠ ("bullish", 1) := by
  decide

/-! ## C4 — detected direction versus static table -/

/--
C4 counterexample: a bullish-table pattern (`hammer`) whose detected
status says `Bearish` is counted as bullish, not bearish — the static
bullish table is consulted in the same disjunction as the `Bullish`
substring check and wins before the `Bearish` check runs.
-/
theorem C4_direction_override_counterexample :
    (get_pattern_signals bearishHammerPatterns).bullish_patterns = ["hammer"]
    ∧ (get_pattern_signals bearishHammerPatterns).bearish_patterns = [] := by
  decide

/-! ## Shared lemmas about the pattern aggregator loop -/

/-- One loop step appends the pattern to `detected_patterns` exactly when
it is detected. -/
theorem patStep_detected_eq (acc : PatAccum) (item : String × PatternData) :
    (patStep acc item).detected
      = acc.detected ++ (if patDetected item.2 then [item.1] else []) := by
  unfold patStep
  by_cases hd : patDetected item.2
  · rcases hc : classifyPattern item.1 item.2 with _ | b
    · simp [hd, hc]
    · cases b <;> simp [hd, hc]
  · simp [hd]

/-- One loop step appends the pattern to the bullish list exactly when it
is detected and classified bullish. -/
theorem patStep_bullish_eq (acc : PatAccum) (item : String × PatternData) :
    (patStep acc item).bullish
      = acc.bullish ++
        (if patDetected item.2 ∧ classifyPattern item.1 item.2 = some Bucket.bull
          then [item.1] else []) := by
  unfold patStep
  by_cases hd : patDetected item.2
  · rcases hc : classifyPattern item.1 item.2 with _ | b
    · simp [hd, hc]
    · cases b <;> simp [hd, hc]
  · simp [hd]

/-- One loop step appends the pattern to the bearish list exactly when it
is detected and classified bearish. -/
theorem patStep_bearish_eq (acc : PatAccum) (item : String × PatternData) :
    (patStep acc item).bearish
      = acc.bearish ++
        (if patDetected item.2 ∧ classifyPattern item.1 item.2 = some Bucket.bear
          then [item.1] else []) := by
  unfold patStep
  by_cases hd : patDetected item.2
  · rcases hc : classifyPattern item.1 item.2 with _ | b
    · simp [hd, hc]
    · cases b <;> simp [hd, hc]
  · simp [hd]

/-- One loop step appends the pattern to the neutral list exactly when it
is detected and classified neutral. -/
theorem patStep_neutral_eq (acc : PatAccum) (item : String × PatternData) :
    (patStep acc item).neutral
      = acc.neutral ++
        (if patDetected item.2 ∧ classifyPattern item.1 item.2 = some Bucket.neut
          then [item.1] else []) := by
  unfold patStep
  by_cases hd : patDetected item.2
  · rcases hc : classifyPattern item.1 item.2 with _ | b
    · simp [hd, hc]
    · cases b <;> simp [hd, hc]
  · simp [hd]

/-- The three step lemmas above, stated through the bucket selector. -/
theorem patStep_bucket_eq (b : Bucket) (acc : PatAccum)
    (item : String × PatternData) :
    bucketList b (patStep acc item)
      = bucketList b acc ++
        (if patDetected item.2 ∧ classifyPattern item.1 item.2 = some b
          then [item.1] else []) := by
  cases b
  · exact patStep_bullish_eq acc item
  · exact patStep_bearish_eq acc item
  · exact patStep_neutral_eq acc item

/-- A name is in a folded classification list exactly when it was already
accumulated or some detected entry of that classification carries it. -/
theorem mem_foldl_patStep_bucket (b : Bucket)
    (items : List (String × PatternData)) (acc : PatAccum) (p : String) :
    p ∈ bucketList b (items.foldl patStep acc) ↔
      p ∈ bucketList b acc ∨ ∃ d, (p, d) ∈ items ∧ patDetected d = true
        ∧ classifyPattern p d = some b := by
  induction items generalizing acc with
  | nil => simp
  | cons hd tl ih =>
    obtain ⟨q, d0⟩ := hd
    rw [List.foldl_cons, ih, patStep_bucket_eq]
    by_cases hc : patDetected d0 ∧ classifyPattern q d0 = some b
    · simp only [if_pos hc, List.mem_append, List.mem_cons, List.not_mem_nil,
        or_false, Prod.mk.injEq]
      constructor
      · rintro ((ha | rfl) | ⟨d, hd1, hd2, hd3⟩)
        · exact Or.inl ha
        · exact Or.inr ⟨d0, Or.inl ⟨rfl, rfl⟩, hc.1, hc.2⟩
        · exact Or.inr ⟨d, Or.inr hd1, hd2, hd3⟩
      · rintro (ha | ⟨d, (⟨rfl, rfl⟩ | hd1), hd2, hd3⟩)
        · exact Or.inl (Or.inl ha)
        · exact Or.inl (Or.inr rfl)
        · exact Or.inr ⟨d, hd1, hd2, hd3⟩
    · simp only [if_neg hc, List.append_nil, List.mem_cons, Prod.mk.injEq]
      constructor
      · rintro (ha | ⟨d, hd1, hd2, hd3⟩)
        · exact Or.inl ha
        · exact Or.inr ⟨d, Or.inr hd1, hd2, hd3⟩
      · rintro (ha | ⟨d, (⟨rfl, rfl⟩ | hd1), hd2, hd3⟩)
        · exact Or.inl ha
        · exact absurd ⟨hd2, hd3⟩ hc
        · exact Or.inr ⟨d, hd1, hd2, hd3⟩

/-- A name is in the folded detected list exactly when it was already
accumulated or some detected entry carries it. -/
theorem mem_foldl_patStep_detected (items : List (String × PatternData))
    (acc : PatAccum) (p : String) :
    p ∈ (items.foldl patStep acc).detected ↔
      p ∈ acc.detected ∨ ∃ d, (p, d) ∈ items ∧ patDetected d = true := by
  induction items generalizing acc with
  | nil => simp
  | cons hd tl ih =>
    obtain ⟨q, d0⟩ := hd
    rw [List.foldl_cons, ih, patStep_detected_eq]
    by_cases hc : patDetected d0
    · simp only [if_pos hc, List.mem_append, List.mem_cons, List.not_mem_nil,
        or_false, Prod.mk.injEq]
      constructor
      · rintro ((ha | rfl) | ⟨d, hd1, hd2⟩)
        · exact Or.inl ha
        · exact Or.inr ⟨d0, Or.inl ⟨rfl, rfl⟩, hc⟩
        · exact Or.inr ⟨d, Or.inr hd1, hd2⟩
      · rintro (ha | ⟨d, (⟨rfl, rfl⟩ | hd1), hd2⟩)
        · exact Or.inl (Or.inl ha)
        · exact Or.inl (Or.inr rfl)
        · exact Or.inr ⟨d, hd1, hd2⟩
    · simp only [hc, if_neg, List.append_nil, List.mem_cons, Prod.mk.injEq,
        Bool.false_eq_true, if_false]
      constructor
      · rintro (ha | ⟨d, hd1, hd2⟩)
        · exact Or.inl ha
        · exact Or.inr ⟨d, Or.inr hd1, hd2⟩
      · rintro (ha | ⟨d, (⟨rfl, rfl⟩ | hd1), hd2⟩)
        · exact Or.inl ha
        · exact absurd hd2 (by simp [hc])
        · exact Or.inr ⟨d, hd1, hd2⟩

/-- One loop step keeps each classification counter equal to the length
of its list. -/
theorem patStep_count_len (acc : PatAccum) (item : String × PatternData)
    (h1 : acc.bullishCount = acc.bullish.length)
    (h2 : acc.bearishCount = acc.bearish.length)
    (h3 : acc.neutralCount = acc.neutral.length) :
    (patStep acc item).bullishCount = (patStep acc item).bullish.length
    ∧ (patStep acc item).bearishCount = (patStep acc item).bearish.length
    ∧ (patStep acc item).neutralCount = (patStep acc item).neutral.length := by
  unfold patStep
  by_cases hd : patDetected item.2
  · rcases hc : classifyPattern item.1 item.2 with _ | b
    · simp [hd, hc, h1, h2, h3]
    · cases b <;> simp [hd, hc, h1, h2, h3]
  · simp [hd, h1, h2, h3]

/-- The folded classification counters equal the lengths of the folded
classification lists. -/
theorem foldl_patStep_count_len (items : List (String × PatternData))
    (acc : PatAccum)
    (h1 : acc.bullishCount = acc.bullish.length)
    (h2 : acc.bearishCount = acc.bearish.length)
    (h3 : acc.neutralCount = acc.neutral.length) :
    (items.foldl patStep acc).bullishCount = (items.foldl patStep acc).bullish.length
    ∧ (items.foldl patStep acc).bearishCount = (items.foldl patStep acc).bearish.length
    ∧ (items.foldl patStep acc).neutralCount = (items.foldl patStep acc).neutral.length := by
  induction items generalizing acc with
  | nil => exact ⟨h1, h2, h3⟩
  | cons hd tl ih =>
    rw [List.foldl_cons]
    obtain ⟨g1, g2, g3⟩ := patStep_count_len acc hd h1 h2 h3
    exact ih (patStep acc hd) g1 g2 g3

/-- In an association list with pairwise distinct keys, a key determines
its value. -/
theorem assoc_keys_unique {β : Type} (l : List (String × β))
    (h : (l.map Prod.fst).Nodup) {p : String} {a b : β}
    (ha : (p, a) ∈ l) (hb : (p, b) ∈ l) : a = b := by
  induction l with
  | nil => cases ha
  | cons hd tl ih =>
    rw [List.map_cons, List.nodup_cons] at h
    rcases List.mem_cons.mp ha with ha1 | ha1 <;>
      rcases List.mem_cons.mp hb with hb1 | hb1
    · have hab : (p, a) = (p, b) := ha1.trans hb1.symm
      exact ((Prod.mk.injEq p a p b).mp hab).2
    · rw [← ha1] at h
      exact absurd (List.mem_map_of_mem Prod.fst hb1) h.1
    · rw [← hb1] at h
      exact absurd (List.mem_map_of_mem Prod.fst ha1) h.1
    · exact ih h.2 ha1 hb1

/--
C4 amended: a detected pattern whose status contains `Bullish` is always
classified bullish (overriding the static table); a status containing
`Bearish` (and not `Bullish`) yields the bearish bucket only when the
pattern is not in the static bullish table; a bullish-table pattern whose
status says `Bearish` is counted as bullish — the static bullish table
takes precedence over a detected `Bearish` label.
-/
theorem C4_direction_override_amended (patterns : List (String × PatternData))
    (p : String) (d : PatternData) (hmem : (p, d) ∈ patterns)
    (hdet : patDetected d = true) :
    (strContains (statusOf d) "Bullish" = true →
      p ∈ (get_pattern_signals patterns).bullish_patterns)
    ∧ (strContains (statusOf d) "Bearish" = true →
        strContains (statusOf d) "Bullish" = false →
        bullish_pattern_table.contains p = false →
        p ∈ (get_pattern_signals patterns).bearish_patterns)
    ∧ (strContains (statusOf d) "Bearish" = true →
        bullish_pattern_table.contains p = true →
        p ∈ (get_pattern_signals patterns).bullish_patterns) := by
  refine ⟨?_, ?_, ?_⟩
  · intro hb
    have hclass : classifyPattern p d = some Bucket.bull := by
      unfold classifyPattern
      rw [if_pos]
      simp [hb]
    show p ∈ bucketList Bucket.bull (patterns.foldl patStep initPatAccum)
    exact (mem_foldl_patStep_bucket Bucket.bull patterns initPatAccum p).mpr
      (Or.inr ⟨d, hmem, hdet, hclass⟩)
  · intro hbear hnotbull hnottable
    have hclass : classifyPattern p d = some Bucket.bear := by
      unfold classifyPattern
      have hpm : p ∉ bullish_pattern_table := by simpa using hnottable
      rw [if_neg (by simp [hnotbull, hpm]), if_pos (by simp [hbear])]
    show p ∈ bucketList Bucket.bear (patterns.foldl patStep initPatAccum)
    exact (mem_foldl_patStep_bucket Bucket.bear patterns initPatAccum p).mpr
      (Or.inr ⟨d, hmem, hdet, hclass⟩)
  · intro hbear htable
    have hclass : classifyPattern p d = some Bucket.bull := by
      have hpm : p ∈ bullish_pattern_table := by simpa using htable
      unfold classifyPattern
      rw [if_pos]
      simp [hpm]
    show p ∈ bucketList Bucket.bull (patterns.foldl patStep initPatAccum)
    exact (mem_foldl_patStep_bucket Bucket.bull patterns initPatAccum p).mpr
      (Or.inr ⟨d, hmem, hdet, hclass⟩)

/-- C4 amended witness: the bearish-status hammer lands in the bullish
bucket of the aggregate. -/
theorem C4_direction_override_amended_witness :
    "hammer" ∈ (get_pattern_signals bearishHammerPatterns).bullish_patterns :=
  (C4_direction_override_amended bearishHammerPatterns "hammer"
    (PatternData.dict "Bearish (2 signals)" 2 [])
    (List.mem_cons_self _ _) (by decide)).2.2 (by decide) (by decide)

/-! ## C10 — pattern aggregator invariants -/

/--
C10: for every pattern map with distinct names, the bullish/bearish/
neutral lists of the aggregate are pairwise disjoint, each is contained
in the detected list, and the overall signal and strength tier are
decided exactly by the lengths of those lists — so a detected pattern
classified into no bucket counts toward `detected_patterns` but toward
neither the overall signal nor the strength tier.
-/
theorem C10_pattern_lists_invariant (patterns : List (String × PatternData))
    (hkeys : (patterns.map Prod.fst).Nodup) :
    (∀ p, ¬(p ∈ (get_pattern_signals patterns).bullish_patterns
        ∧ p ∈ (get_pattern_signals patterns).bearish_patterns))
    ∧ (∀ p, ¬(p ∈ (get_pattern_signals patterns).bullish_patterns
        ∧ p ∈ (get_pattern_signals patterns).neutral_patterns))
    ∧ (∀ p, ¬(p ∈ (get_pattern_signals patterns).bearish_patterns
        ∧ p ∈ (get_pattern_signals patterns).neutral_patterns))
    ∧ (∀ p, p ∈ (get_pattern_signals patterns).bullish_patterns →
        p ∈ (get_pattern_signals patterns).detected_patterns)
    ∧ (∀ p, p ∈ (get_pattern_signals patterns).bearish_patterns →
        p ∈ (get_pattern_signals patterns).detected_patterns)
    ∧ (∀ p, p ∈ (get_pattern_signals patterns).neutral_patterns →
        p ∈ (get_pattern_signals patterns).detected_patterns)
    ∧ (get_pattern_signals patterns).overall_signal =
        (if (get_pattern_signals patterns).bullish_patterns.length >
            (get_pattern_signals patterns).bearish_patterns.length then "bullish"
         else if (get_pattern_signals patterns).bearish_patterns.length >
            (get_pattern_signals patterns).bullish_patterns.length then "bearish"
         else "neutral")
    ∧ (get_pattern_signals patterns).signal_strength =
        (if (get_pattern_signals patterns).bullish_patterns.length +
            (get_pattern_signals patterns).bearish_patterns.length +
            (get_pattern_signals patterns).neutral_patterns.length ≥ 3 then "strong"
         else if (get_pattern_signals patterns).bullish_patterns.length +
            (get_pattern_signals patterns).bearish_patterns.length +
            (get_pattern_signals patterns).neutral_patterns.length ≥ 2 then "moderate"
         else "weak") := by
  have disj : ∀ (b1 b2 : Bucket), b1 ≠ b2 → ∀ p,
      ¬(p ∈ bucketList b1 (patterns.foldl patStep initPatAccum)
        ∧ p ∈ bucketList b2 (patterns.foldl patStep initPatAccum)) := by
    rintro b1 b2 hne p ⟨h1, h2⟩
    rcases (mem_foldl_patStep_bucket b1 patterns initPatAccum p).mp h1 with
      h0 | ⟨d1, hd1, hdet1, hcl1⟩
    · cases b1 <;> exact absurd h0 (List.not_mem_nil p)
    rcases (mem_foldl_patStep_bucket b2 patterns initPatAccum p).mp h2 with
      h0 | ⟨d2, hd2, hdet2, hcl2⟩
    · cases b2 <;> exact absurd h0 (List.not_mem_nil p)
    have hdd : d1 = d2 := assoc_keys_unique patterns hkeys hd1 hd2
    rw [hdd, hcl2] at hcl1
    exact hne (Option.some.inj hcl1).symm
  have subs : ∀ (b : Bucket) p,
      p ∈ bucketList b (patterns.foldl patStep initPatAccum) →
      p ∈ (patterns.foldl patStep initPatAccum).detected := by
    intro b p h1
    rcases (mem_foldl_patStep_bucket b patterns initPatAccum p).mp h1 with
      h0 | ⟨d1, hd1, hdet1, _⟩
    · cases b <;> exact absurd h0 (List.not_mem_nil p)
    exact (mem_foldl_patStep_detected patterns initPatAccum p).mpr
      (Or.inr ⟨d1, hd1, hdet1⟩)
  obtain ⟨c1, c2, c3⟩ := foldl_patStep_count_len patterns initPatAccum rfl rfl rfl
  refine ⟨disj Bucket.bull Bucket.bear (by decide),
    disj Bucket.bull Bucket.neut (by decide),
    disj Bucket.bear Bucket.neut (by decide),
    subs Bucket.bull, subs Bucket.bear, subs Bucket.neut, ?_, ?_⟩
  · show (if (patterns.foldl patStep initPatAccum).bullishCount >
        (patterns.foldl patStep initPatAccum).bearishCount then "bullish"
      else if (patterns.foldl patStep initPatAccum).bearishCount >
        (patterns.foldl patStep initPatAccum).bullishCount then "bearish"
      else "neutral") = _
    rw [c1, c2]
    rfl
  · show (if (patterns.foldl patStep initPatAccum).bullishCount +
        (patterns.foldl patStep initPatAccum).bearishCount +
        (patterns.foldl patStep initPatAccum).neutralCount ≥ 3 then "strong"
      else if (patterns.foldl patStep initPatAccum).bullishCount +
        (patterns.foldl patStep initPatAccum).bearishCount +
        (patterns.foldl patStep initPatAccum).neutralCount ≥ 2 then "moderate"
      else "weak") = _
    rw [c1, c2, c3]
    rfl

/--
C10 witness: on a concrete map holding a structured bullish hammer, a
bearish legacy-string shooting star, a neutral doji, and a detected
legacy-string engulfing that no table or label classifies, the buckets
are disjoint singletons inside the four-element detected list, and the
unclassified engulfing is counted by none of them.
-/
theorem C10_pattern_lists_invariant_witness :
    ¬("hammer" ∈ (get_pattern_signals c10Patterns).bullish_patterns
      ∧ "hammer" ∈ (get_pattern_signals c10Patterns).bearish_patterns)
    ∧ ("hammer" ∈ (get_pattern_signals c10Patterns).bullish_patterns →
        "hammer" ∈ (get_pattern_signals c10Patterns).detected_patterns)
    ∧ (get_pattern_signals c10Patterns).overall_signal =
        (if (get_pattern_signals c10Patterns).bullish_patterns.length >
            (get_pattern_signals c10Patterns).bearish_patterns.length then "bullish"
         else if (get_pattern_signals c10Patterns).bearish_patterns.length >
            (get_pattern_signals c10Patterns).bullish_patterns.length then "bearish"
         else "neutral")
    ∧ (get_pattern_signals c10Patterns).detected_patterns =
        ["hammer", "shooting_star", "doji", "engulfing"]
    ∧ (get_pattern_signals c10Patterns).bullish_patterns = ["hammer"]
    ∧ (get_pattern_signals c10Patterns).bearish_patterns = ["shooting_star"]
    ∧ (get_pattern_signals c10Patterns).neutral_patterns = ["doji"] := by
  have h := C10_pattern_lists_invariant c10Patterns (by decide)
  exact ⟨h.1 "hammer", h.2.2.2.1 "hammer", h.2.2.2.2.2.2.1,
    by decide, by decide, by decide, by decide⟩

/-! ## Shared lemmas about the weighted aggregation -/

/-- One indicator-loop step preserves non-negative bullish/bearish
weights whose sum is bounded by the total weight. -/
theorem stepIndicator_inv (price : ℚ) (prov : Providers) (acc : SigAccum)
    (item : String × List ℕ)
    (h : 0 ≤ acc.bullish ∧ 0 ≤ acc.bearish ∧ acc.bullish + acc.bearish ≤ acc.total) :
    0 ≤ (stepIndicator price prov acc item).bullish
    ∧ 0 ≤ (stepIndicator price prov acc item).bearish
    ∧ (stepIndicator price prov acc item).bullish +
        (stepIndicator price prov acc item).bearish ≤
        (stepIndicator price prov acc item).total := by
  obtain ⟨h1, h2, h3⟩ := h
  unfold stepIndicator
  cases hp : prov.indicator item.1 item.2 with
  | error e => exact ⟨h1, h2, h3⟩
  | ok r =>
    have hw := analyze_signal_weight_nonneg item.1 r price
    dsimp only
    by_cases hs1 : (analyze_indicator_signal item.1 r price).1 = "bullish"
    · rw [if_pos hs1]
      refine ⟨?_, ?_, ?_⟩ <;> dsimp only <;> linarith
    · rw [if_neg hs1]
      by_cases hs2 : (analyze_indicator_signal item.1 r price).1 = "bearish"
      · rw [if_pos hs2]
        refine ⟨?_, ?_, ?_⟩ <;> dsimp only <;> linarith
      · rw [if_neg hs2]
        refine ⟨?_, ?_, ?_⟩ <;> dsimp only <;> linarith

/-- The whole indicator loop preserves the weight invariant. -/
theorem foldl_stepIndicator_inv (price : ℚ) (prov : Providers)
    (items : List (String × List ℕ)) (acc : SigAccum)
    (h : 0 ≤ acc.bullish ∧ 0 ≤ acc.bearish ∧ acc.bullish + acc.bearish ≤ acc.total) :
    0 ≤ (items.foldl (stepIndicator price prov) acc).bullish
    ∧ 0 ≤ (items.foldl (stepIndicator price prov) acc).bearish
    ∧ (items.foldl (stepIndicator price prov) acc).bullish +
        (items.foldl (stepIndicator price prov) acc).bearish ≤
        (items.foldl (stepIndicator price prov) acc).total := by
  induction items generalizing acc with
  | nil => exact h
  | cons hd tl ih =>
    rw [List.foldl_cons]
    exact ih (stepIndicator price prov acc hd) (stepIndicator_inv price prov acc hd h)

/-- The accumulated weights of the full aggregation (indicator loop plus
pattern block) are non-negative and sum to at most the total weight. -/
theorem aggregate_all_inv (price : ℚ) (prov : Providers) :
    0 ≤ (aggregate_all price prov).1.bullish
    ∧ 0 ≤ (aggregate_all price prov).1.bearish
    ∧ (aggregate_all price prov).1.bullish + (aggregate_all price prov).1.bearish ≤
        (aggregate_all price prov).1.total := by
  have hbase := foldl_stepIndicator_inv price prov indicators_config initSigAccum
    (by refine ⟨le_refl 0, le_refl 0, ?_⟩; norm_num [initSigAccum])
  unfold aggregate_all
  cases hp : prov.patterns with
  | error e => exact hbase
  | ok pats =>
    obtain ⟨h1, h2, h3⟩ := hbase
    dsimp only
    by_cases ho1 : (get_pattern_signals pats).overall_signal = "bullish"
    · rw [if_pos ho1]
      by_cases ho2 : (get_pattern_signals pats).signal_strength = "strong" <;>
        [rw [if_pos ho2]; rw [if_neg ho2]] <;>
        refine ⟨?_, ?_, ?_⟩ <;> dsimp only <;> linarith
    · rw [if_neg ho1]
      by_cases ho3 : (get_pattern_signals pats).overall_signal = "bearish"
      · rw [if_pos ho3]
        by_cases ho2 : (get_pattern_signals pats).signal_strength = "strong" <;>
          [rw [if_pos ho2]; rw [if_neg ho2]] <;>
          refine ⟨?_, ?_, ?_⟩ <;> dsimp only <;> linarith
      · rw [if_neg ho3]
        exact ⟨h1, h2, h3⟩

/-- First-match reading of the decision rule for a positive total. -/
theorem overall_prediction_cases (b s t : ℚ) (ht : 0 < t) :
    (b / t > 3/5 → overall_prediction b s t = ("call", min (b / t) (19/20)))
    ∧ (¬(b / t > 3/5) → s / t > 3/5 →
        overall_prediction b s t = ("put", min (s / t) (19/20)))
    ∧ (¬(b / t > 3/5) → ¬(s / t > 3/5) →
        overall_prediction b s t = ("neutral", 1 - |b / t - s / t|)) := by
  unfold overall_prediction
  rw [if_pos ht]
  dsimp only
  refine ⟨?_, ?_, ?_⟩
  · intro hb
    rw [if_pos hb]
  · intro hb hs
    rw [if_neg hb, if_pos hs]
  · intro hb hs
    rw [if_neg hb, if_neg hs]

/-- The decision label is one of the three prediction strings. -/
theorem overall_prediction_label_mem (b s t : ℚ) :
    (overall_prediction b s t).1 = "call" ∨ (overall_prediction b s t).1 = "put"
    ∨ (overall_prediction b s t).1 = "neutral" := by
  unfold overall_prediction
  dsimp only
  split_ifs <;> simp

/-- Under the weight invariant the decision confidence lies in [0, 1]. -/
theorem overall_prediction_conf_bounds (b s t : ℚ)
    (hb : 0 ≤ b) (hs : 0 ≤ s) (hbs : b + s ≤ t) :
    0 ≤ (overall_prediction b s t).2 ∧ (overall_prediction b s t).2 ≤ 1 := by
  unfold overall_prediction
  dsimp only
  split_ifs with ht h1 h2
  · refine ⟨le_min (div_nonneg hb ht.le) (by norm_num), ?_⟩
    exact le_trans (min_le_right _ _) (by norm_num)
  · refine ⟨le_min (div_nonneg hs ht.le) (by norm_num), ?_⟩
    exact le_trans (min_le_right _ _) (by norm_num)
  · have hb1 : b / t ≤ 1 := by
      rw [div_le_one ht]
      linarith
    have hs1 : s / t ≤ 1 := by
      rw [div_le_one ht]
      linarith
    have hb0 : 0 ≤ b / t := div_nonneg hb ht.le
    have hs0 : 0 ≤ s / t := div_nonneg hs ht.le
    have habs : |b / t - s / t| ≤ 1 := abs_le.mpr ⟨by linarith, by linarith⟩
    have habs0 : 0 ≤ |b / t - s / t| := abs_nonneg _
    constructor <;> dsimp only <;> linarith
  · exact ⟨le_refl 0, by norm_num⟩

/-- A call/put decision always carries confidence strictly above 0.6 and
at most 0.95. -/
theorem overall_prediction_callput_conf (b s t : ℚ)
    (h : (overall_prediction b s t).1 = "call" ∨ (overall_prediction b s t).1 = "put") :
    3/5 < (overall_prediction b s t).2 ∧ (overall_prediction b s t).2 ≤ 19/20 := by
  unfold overall_prediction at h ⊢
  dsimp only at h ⊢
  split_ifs at h ⊢ with ht h1 h2
  · exact ⟨lt_min h1 (by norm_num), min_le_right _ _⟩
  · exact ⟨lt_min h2 (by norm_num), min_le_right _ _⟩
  · simp at h
  · simp at h

/-! ## C6 — the aggregator never raises -/

/--
C6: for every candle list and every behavior of the external providers,
`predict_binary_options` returns a well-formed result — the label is one
of call/put/neutral and the confidence lies in [0, 1] — and on the
catastrophic path (the empty series, the only input on which the guarded
body can raise) it returns direction neutral, confidence 0, and an
attached diagnostic message.
-/
theorem C6_never_raises (candles : List Candle) (prov : Providers) (tf : ℤ) :
    ((predict_binary_options candles prov tf).prediction = "call"
      ∨ (predict_binary_options candles prov tf).prediction = "put"
      ∨ (predict_binary_options candles prov tf).prediction = "neutral")
    ∧ 0 ≤ (predict_binary_options candles prov tf).confidence
    ∧ (predict_binary_options candles prov tf).confidence ≤ 1
    ∧ (candles = [] →
        (predict_binary_options candles prov tf).prediction = "neutral"
        ∧ (predict_binary_options candles prov tf).confidence = 0
        ∧ (predict_binary_options candles prov tf).error.isSome = true) := by
  unfold predict_binary_options
  cases hp : lastClose candles with
  | none =>
    exact ⟨Or.inr (Or.inr rfl), le_refl 0, by norm_num [predict_error_result],
      fun _ => ⟨rfl, rfl, rfl⟩⟩
  | some price =>
    obtain ⟨i1, i2, i3⟩ := aggregate_all_inv price prov
    have hb := overall_prediction_conf_bounds (aggregate_all price prov).1.bullish
      (aggregate_all price prov).1.bearish (aggregate_all price prov).1.total i1 i2 i3
    refine ⟨overall_prediction_label_mem _ _ _, hb.1, hb.2, ?_⟩
    intro he
    rw [he] at hp
    simp [lastClose] at hp

/-- C6 witness: on the empty series with failing providers the result is
the neutral zero-confidence record with the diagnostic attached. -/
theorem C6_never_raises_witness :
    (predict_binary_options [] failProviders 5).prediction = "neutral"
    ∧ (predict_binary_options [] failProviders 5).confidence = 0
    ∧ (predict_binary_options [] failProviders 5).error.isSome = true :=
  (C6_never_raises [] failProviders 5).2.2.2 rfl

/-! ## C5 — the two reported shares sum to at most one -/

/--
C5: whenever `predict_binary_options` reports a `signals` summary, the
reported bullish and bearish shares (source keys `bullish_ratio` and
`bearish_ratio`, computed with the `max(total, 1)` denominator) are
non-negative and sum to at most 1: every weight counted in a directional
numerator is also counted in the total, and neutral weights enlarge only
the denominator.
-/
theorem C5_shares_bounded (candles : List Candle) (prov : Providers) (tf : ℤ)
    (sg : PredSignals)
    (h : (predict_binary_options candles prov tf).signals = some sg) :
    0 ≤ sg.bullishFrac ∧ 0 ≤ sg.bearishFrac
    ∧ sg.bullishFrac + sg.bearishFrac ≤ 1 := by
  unfold predict_binary_options at h
  cases hp : lastClose candles with
  | none =>
    rw [hp] at h
    exact absurd h (by simp [predict_error_result])
  | some price =>
    rw [hp] at h
    have hsg := Option.some.inj h.symm
    obtain ⟨i1, i2, i3⟩ := aggregate_all_inv price prov
    have hm1 : (1 : ℚ) ≤ max (aggregate_all price prov).1.total 1 := le_max_right _ _
    have hm0 : (0 : ℚ) < max (aggregate_all price prov).1.total 1 := by linarith
    have hmt : (aggregate_all price prov).1.total ≤
        max (aggregate_all price prov).1.total 1 := le_max_left _ _
    subst hsg
    refine ⟨?_, ?_, ?_⟩ <;> dsimp only
    · exact div_nonneg i1 hm0.le
    · exact div_nonneg i2 hm0.le
    · rw [div_add_div_same, div_le_one hm0]
      linarith

unseal Rat.mul Rat.add Rat.sub Rat.inv in
/-- C5 witness: the single-candle oversold-RSI fixture reports shares 1
and 0, which satisfy the bounds. -/
theorem C5_shares_bounded_witness :
    0 ≤ wOversoldSignals.bullishFrac ∧ 0 ≤ wOversoldSignals.bearishFrac
    ∧ wOversoldSignals.bullishFrac + wOversoldSignals.bearishFrac ≤ 1 :=
  C5_shares_bounded oneCandle rsiOversoldProviders 5 wOversoldSignals (by decide)

/-! ## C2 — decision rule and confidence bounds -/

/--
C2: with a current price in hand and a positive total weight, the
prediction follows the first-match decision rule — bullish share above
0.6 gives call with confidence `min(share, 0.95)`, else bearish share
above 0.6 gives put symmetrically, else neutral with confidence
`1 − |bullish share − bearish share|` — and consequently the confidence
lies in [0, 0.95] for call/put and in [0, 1] for neutral.
-/
theorem C2_decision_rule (candles : List Candle) (prov : Providers) (tf : ℤ)
    (price : ℚ) (hp : lastClose candles = some price)
    (ht : 0 < (aggregate_all price prov).1.total) :
    ((aggregate_all price prov).1.bullish / (aggregate_all price prov).1.total > 3/5 →
      (predict_binary_options candles prov tf).prediction = "call"
      ∧ (predict_binary_options candles prov tf).confidence =
          min ((aggregate_all price prov).1.bullish /
            (aggregate_all price prov).1.total) (19/20))
    ∧ (¬((aggregate_all price prov).1.bullish / (aggregate_all price prov).1.total > 3/5) →
        (aggregate_all price prov).1.bearish / (aggregate_all price prov).1.total > 3/5 →
        (predict_binary_options candles prov tf).prediction = "put"
        ∧ (predict_binary_options candles prov tf).confidence =
            min ((aggregate_all price prov).1.bearish /
              (aggregate_all price prov).1.total) (19/20))
    ∧ (¬((aggregate_all price prov).1.bullish / (aggregate_all price prov).1.total > 3/5) →
        ¬((aggregate_all price prov).1.bearish / (aggregate_all price prov).1.total > 3/5) →
        (predict_binary_options candles prov tf).prediction = "neutral"
        ∧ (predict_binary_options candles prov tf).confidence =
            1 - |(aggregate_all price prov).1.bullish /
                (aggregate_all price prov).1.total -
              (aggregate_all price prov).1.bearish /
                (aggregate_all price prov).1.total|)
    ∧ (((predict_binary_options candles prov tf).prediction = "call"
        ∨ (predict_binary_options candles prov tf).prediction = "put") →
        0 ≤ (predict_binary_options candles prov tf).confidence
        ∧ (predict_binary_options candles prov tf).confidence ≤ 19/20)
    ∧ ((predict_binary_options candles prov tf).prediction = "neutral" →
        0 ≤ (predict_binary_options candles prov tf).confidence
        ∧ (predict_binary_options candles prov tf).confidence ≤ 1) := by
  have hred : predict_binary_options candles prov tf
      = predict_success candles prov tf price := by
    unfold predict_binary_options
    rw [hp]
  obtain ⟨hc1, hc2, hc3⟩ := overall_prediction_cases (aggregate_all price prov).1.bullish
    (aggregate_all price prov).1.bearish (aggregate_all price prov).1.total ht
  obtain ⟨i1, i2, i3⟩ := aggregate_all_inv price prov
  have hbounds := overall_prediction_conf_bounds (aggregate_all price prov).1.bullish
    (aggregate_all price prov).1.bearish (aggregate_all price prov).1.total i1 i2 i3
  rw [hred]
  refine ⟨?_, ?_, ?_, ?_, ?_⟩
  · intro hb
    constructor
    · show (overall_prediction (aggregate_all price prov).1.bullish
        (aggregate_all price prov).1.bearish (aggregate_all price prov).1.total).1 = "call"
      rw [hc1 hb]
    · show (overall_prediction (aggregate_all price prov).1.bullish
        (aggregate_all price prov).1.bearish (aggregate_all price prov).1.total).2 = _
      rw [hc1 hb]
  · intro hb hs
    constructor
    · show (overall_prediction (aggregate_all price prov).1.bullish
        (aggregate_all price prov).1.bearish (aggregate_all price prov).1.total).1 = "put"
      rw [hc2 hb hs]
    · show (overall_prediction (aggregate_all price prov).1.bullish
        (aggregate_all price prov).1.bearish (aggregate_all price prov).1.total).2 = _
      rw [hc2 hb hs]
  · intro hb hs
    constructor
    · show (overall_prediction (aggregate_all price prov).1.bullish
        (aggregate_all price prov).1.bearish (aggregate_all price prov).1.total).1 = "neutral"
      rw [hc3 hb hs]
    · show (overall_prediction (aggregate_all price prov).1.bullish
        (aggregate_all price prov).1.bearish (aggregate_all price prov).1.total).2 = _
      rw [hc3 hb hs]
  · intro hcp
    have hq := overall_prediction_callput_conf (aggregate_all price prov).1.bullish
      (aggregate_all price prov).1.bearish (aggregate_all price prov).1.total hcp
    exact ⟨hbounds.1, hq.2⟩
  · intro _
    exact hbounds

unseal Rat.mul Rat.add Rat.sub Rat.inv in
/-- C2 witness: the single-candle oversold-RSI fixture has total weight
1.5 and bullish share 1 > 0.6, so the rule yields call with confidence
`min(1, 0.95)`. -/
theorem C2_decision_rule_witness :
    (predict_binary_options oneCandle rsiOversoldProviders 5).prediction = "call"
    ∧ (predict_binary_options oneCandle rsiOversoldProviders 5).confidence =
        min ((aggregate_all 100 rsiOversoldProviders).1.bullish /
          (aggregate_all 100 rsiOversoldProviders).1.total) (19/20) :=
  (C2_decision_rule oneCandle rsiOversoldProviders 5 100 (by decide) (by decide)).1
    (by decide)

/-! ## C9 — non-neutral predictions never suggest avoiding entry -/

/--
C9: whenever the aggregator predicts call or put, the confidence is
strictly greater than 0.6, and consequently the suggested entry timing
is `immediate` or `wait_for_confirmation` — the `avoid` arm of the
non-neutral branch of `_generate_entry_suggestions` is unreachable.
-/
theorem C9_entry_timing (candles : List Candle) (prov : Providers) (tf : ℤ)
    (h : (predict_binary_options candles prov tf).prediction = "call"
      ∨ (predict_binary_options candles prov tf).prediction = "put") :
    3/5 < (predict_binary_options candles prov tf).confidence
    ∧ (entryTimingOf (predict_binary_options candles prov tf) = some "immediate"
      ∨ entryTimingOf (predict_binary_options candles prov tf)
          = some "wait_for_confirmation") := by
  unfold predict_binary_options at h ⊢
  cases hp : lastClose candles with
  | none =>
    rw [hp] at h
    exact absurd h (by simp [predict_error_result])
  | some price =>
    rw [hp] at h
    have hcp : ((overall_prediction (aggregate_all price prov).1.bullish
        (aggregate_all price prov).1.bearish (aggregate_all price prov).1.total).1 = "call"
      ∨ (overall_prediction (aggregate_all price prov).1.bullish
        (aggregate_all price prov).1.bearish (aggregate_all price prov).1.total).1 = "put") := h
    have hq := overall_prediction_callput_conf (aggregate_all price prov).1.bullish
      (aggregate_all price prov).1.bearish (aggregate_all price prov).1.total hcp
    refine ⟨hq.1, ?_⟩
    have hrw : entryTimingOf (predict_success candles prov tf price)
        = (generate_entry_suggestions candles
            (overall_prediction (aggregate_all price prov).1.bullish
              (aggregate_all price prov).1.bearish
              (aggregate_all price prov).1.total).1
            (overall_prediction (aggregate_all price prov).1.bullish
              (aggregate_all price prov).1.bearish
              (aggregate_all price prov).1.total).2
            (assess_risk prov.risk_stats
              (overall_prediction (aggregate_all price prov).1.bullish
                (aggregate_all price prov).1.bearish
                (aggregate_all price prov).1.total).2)).entry_timing := rfl
    rw [hrw]
    unfold generate_entry_suggestions
    rw [hp]
    dsimp only
    rw [if_pos hcp]
    dsimp only
    by_cases h45 : (overall_prediction (aggregate_all price prov).1.bullish
        (aggregate_all price prov).1.bearish (aggregate_all price prov).1.total).2 > 4/5
    · rw [if_pos h45]
      exact Or.inl rfl
    · rw [if_neg h45, if_pos hq.1]
      exact Or.inr rfl

unseal Rat.mul Rat.add Rat.sub Rat.inv in
/-- C9 witness: the single-candle oversold-RSI fixture predicts call with
confidence 0.95, and the suggested timing is `immediate`. -/
theorem C9_entry_timing_witness :
    3/5 < (predict_binary_options oneCandle rsiOversoldProviders 5).confidence
    ∧ (entryTimingOf (predict_binary_options oneCandle rsiOversoldProviders 5)
          = some "immediate"
      ∨ entryTimingOf (predict_binary_options oneCandle rsiOversoldProviders 5)
          = some "wait_for_confirmation") :=
  C9_entry_timing oneCandle rsiOversoldProviders 5 (Or.inl (by decide))
